import Mathlib

/-!
Shallow embedding of the GeoportalTH_Imagery_Download repository
(`geothimagery/GeoportalTH_main.py` and `geothimagery/op_tile_finder.py`).

Pure decision logic (year/vintage selection, tile-name derivation, the
odd/even tile-coordinate correction, CSV-lookup ID resolution, the
file-deletion bookkeeping and the batch-query ID ranges) is translated
directly from the Python source.  Stateful pieces are made explicit:
the in-place mutation of the caller's tile list in `op_download` becomes
state passing, the filesystem becomes an explicit list of paths, and the
network/raster side effects of the pipeline become an event trace.
Python exceptions become an `Except`-style error value.
-/

namespace GeoportalTH

/-- The exception kinds raised by `GeoportalTH_main.py` (its three custom
exception classes plus the Python built-ins `ValueError` and `TypeError`
that its code can raise). -/
inductive PyExc where
  | valueError (msg : String)
  | typeError (msg : String)
  | functionalityNotImplemented (msg : String)
  | missingAerialCoverage (msg : String)
  | areaOutOfBounds (msg : String)
  deriving DecidableEq

deriving instance DecidableEq for Except

/-- One row of the `id,year,tilename` lookup table read by `op_download`
via `pd.read_csv`. -/
structure LookupRow where
  id : Int
  year : Int
  tilename : String
  deriving DecidableEq

/-- Splitting a character list at every occurrence of the character `c`;
models Python `str.split` with a single-character separator. -/
def splitOnChar (c : Char) : List Char → List (List Char)
  | [] => [[]]
  | x :: xs =>
    let r := splitOnChar c xs
    if x = c then [] :: r
    else
      match r with
      | [] => [[x]]
      | y :: ys => (x :: y) :: ys

/-- Parsing a non-empty all-digit character list as a natural number. -/
def parseNatChars (l : List Char) : Option Nat :=
  if l = [] then none
  else if l.all Char.isDigit then
    some (l.foldl (fun acc c => acc * 10 + (c.toNat - 48)) 0)
  else none

/-- Parsing an optionally negated decimal literal; models Python `int()`
on canonical integer literals (the only shape tile coordinates take). -/
def parseIntChars : List Char → Option Int
  | '-' :: rest => (parseNatChars rest).map (fun n => -(n : Int))
  | l => (parseNatChars l).map (fun n => (n : Int))

/-- `tile_x, tile_y = tile.split("_")` followed by
`int(tile_x), int(tile_y)` in `op_download`; a wrong number of parts or a
non-integer part raises a `ValueError` in Python. -/
def parseTileCoords (tile : String) : Except PyExc (Int × Int) :=
  match splitOnChar '_' tile.data with
  | [sx, sy] =>
    match parseIntChars sx, parseIntChars sy with
    | some x, some y => .ok (x, y)
    | _, _ => .error (.valueError ("invalid tile name"))
  | _ => .error (.valueError ("invalid tile name"))

/-- `str(x) + "_" + str(y)`: rebuilding a tile name from coordinates. -/
def mkTileName (x y : Int) : String := toString x ++ "_" ++ toString y

/-- The body of one iteration of the odd/even correction loop in
`op_download` (lines 432-448): parse the coordinates, and
* if exactly one of x, y is odd (`(tile_x & 1) + (tile_y & 1) == 1`,
  where `& 1` on a Python int equals floored `% 2`), decrement that one;
* if both are odd, decrement both;
* if both are even, `continue` (modelled as `none`). -/
def tileCorrection (tile : String) : Except PyExc (Option String) :=
  match parseTileCoords tile with
  | .error e => .error e
  | .ok (x, y) =>
    if x % 2 + y % 2 == 1 then
      if x % 2 == 1 then .ok (some (mkTileName (x - 1) y))
      else .ok (some (mkTileName x (y - 1)))
    else if x % 2 + y % 2 == 2 then
      .ok (some (mkTileName (x - 1) (y - 1)))
    else .ok none

/-- The whole correction loop of `op_download` (lines 430-455):
`tiles_check` is the snapshot (`tiles.copy()`) being iterated, the second
argument is the live `tiles` list being mutated.  For every snapshot tile
needing correction the original is removed (`tiles.remove(tile)`, which
raises `ValueError` when absent) and the corrected name appended only if
not already present.  Returns the final list and the exception, if any,
that aborted the loop (the list state at that point is kept, since the
Python list is mutated in place). -/
def opCorrectFold : List String → List String → List String × Option PyExc
  | [], tiles => (tiles, none)
  | tile :: rest, tiles =>
    match tileCorrection tile with
    | .error e => (tiles, some e)
    | .ok none => opCorrectFold rest tiles
    | .ok (some newTile) =>
      if tile ∈ tiles then
        let tiles1 := tiles.erase tile
        let tiles2 := if newTile ∈ tiles1 then tiles1 else tiles1 ++ [newTile]
        opCorrectFold rest tiles2
      else (tiles, some (.valueError ("list.remove(x): x not in list")))

/-- The correction step as called: the snapshot is the incoming list. -/
def opCorrectTiles (tiles : List String) : List String × Option PyExc :=
  opCorrectFold tiles tiles

/-- The ID-matching loop of `op_download` (lines 458-464): for each tile,
filter the (already year-filtered) lookup rows by tile name; if no row
matches raise `MissingAerialCoverage`, otherwise take `values[0][0]`,
i.e. the `id` of the first matching row. -/
def findIds (lookup : List LookupRow) : List String → Except PyExc (List Int)
  | [] => .ok []
  | tile :: rest =>
    match lookup.filter (fun row => row.tilename == tile) with
    | [] => .error (.missingAerialCoverage
        ("There are no matching ortophoto tiles in this year."))
    | row :: _ =>
      match findIds lookup rest with
      | .error e => .error e
      | .ok ids => .ok (row.id :: ids)

/-- Year filter plus ID matching, as performed by `op_download`
(line 423 filters `lookup` by `year`, lines 458-464 match the tiles). -/
def opResolveIds (lookup : List LookupRow) (year : Int) (tiles : List String) :
    Except PyExc (List Int) :=
  findIds (lookup.filter (fun row => row.year == year)) tiles

/-- `op_download` up to and including ID resolution, with the in-place
mutation of the caller's `tiles` list made explicit: the first component
is the state of the caller's list after the call (also after a call that
raises), the second is the resolved ID list or the exception raised. -/
def op_download_state (tiles : List String) (year : Int)
    (lookup : List LookupRow) : List String × Except PyExc (List Int) :=
  let lookupY := lookup.filter (fun row => row.year == year)
  if year ≤ 2018 then
    match opCorrectTiles tiles with
    | (tiles2, some e) => (tiles2, .error e)
    | (tiles2, none) => (tiles2, findIds lookupY tiles2)
  else (tiles, findIds lookupY tiles)

/-- `dem_year_func` (lines 169-182): maps the requested year to the
overview-grid URL and the vintage label, raising `ValueError` only in the
final `else` branch (year above 2025). -/
def dem_year_func (year : Int) : Except PyExc (String × String) :=
  if year ≤ 2013 ∧ year ≥ 2010 then
    .ok ("https://geoportal.geoportal-th.de/hoehendaten/Uebersichten/Stand_2010-2013.zip",
         "2010-2013")
  else if year ≤ 2019 then
    .ok ("https://geoportal.geoportal-th.de/hoehendaten/Uebersichten/Stand_2014-2019.zip",
         "2014-2019")
  else if year ≤ 2025 then
    .ok ("https://geoportal.geoportal-th.de/hoehendaten/Uebersichten/Stand_2020-2025.zip",
         "2020-2025")
  else
    .error (.valueError
      ("The provided year is not yet supported with an URL. Current support ranges from 2010 to 2025."))

/-- Python slice `s[a:b]` for non-negative bounds. -/
def pySlice (s : String) (a b : Nat) : String := String.mk ((s.data.take b).drop a)

/-- `intersection` (lines 229-292), abstracted over the result of the
geometric overlay: `overlayRows` is the list of tile-name attribute
values (`DGM_1X1` for the 2010-2013 vintage, `NAME` otherwise) of the
rows of `gpd.overlay(polygon, grid, how="intersection")`.  Unknown
vintages raise `ValueError` (while computing `grid_path`, before the
overlay); an empty overlay raises `AreaOutOfBounds`; for the 2010-2013
vintage each attribute is sliced as `tile[2:end]` where `end` is the
length of the first row's attribute. -/
def intersection (dem_year : String) (overlayRows : List String) :
    Except PyExc (List String) :=
  if dem_year == "2010-2013" || dem_year == "2014-2019" || dem_year == "2020-2025" then
    if overlayRows.length == 0 then
      .error (.areaOutOfBounds
        ("Your area of interest seems to not lie within Thuringian state borders or adequate coverage is not available for chosen DEMs."))
    else if dem_year == "2010-2013" then
      .ok (overlayRows.map (fun tile => pySlice tile 2 (overlayRows.headD ("")).length))
    else
      .ok overlayRows
  else
    .error (.valueError ("The provided timeframe is not yet supported by this function."))

/-- `determine_files_to_delete` (lines 584-629).  The Python body checks
`"all" in keep_files` first, so the call with `keep_files=None` raises
`TypeError` (`None` is not iterable) and the subsequent
`if keep_files is None` branch is unreachable. -/
def determine_files_to_delete (zip_list unzip_list intermediates : List String)
    (keep_files : Option (List String)) : Except PyExc (List (List String)) :=
  match keep_files with
  | none => .error (.typeError ("argument of type NoneType is not iterable"))
  | some kf =>
    if ("all") ∈ kf then .ok []
    else
      .ok ((if ("zip") ∈ kf then [] else [zip_list]) ++
           (if ("unzipped") ∈ kf then [] else [unzip_list]) ++
           (if ("intermediate") ∈ kf then [] else [intermediates]))

/-- The argument shape accepted by `delete_residual_files`: a single path
or an arbitrarily nested list of paths. -/
inductive PyPaths where
  | path (p : String)
  | list (l : List PyPaths)

/-- Effect of `delete_residual_files` on the filesystem for one argument:
a path is removed from disk when `os.path.isfile` holds (a missing path
only emits a warning), a list is processed element by element by the
recursive call `delete_residual_files(sub_list)`. -/
def deleteOne : PyPaths → List String → List String
  | .path p, disk => if p ∈ disk then disk.erase p else disk
  | .list [], disk => disk
  | .list (x :: xs), disk => deleteOne (.list xs) (deleteOne x disk)

/-- `delete_residual_files(*lists)` (lines 632-669) as a disk transform.
A single argument is handled by the `len(lists) < 2` branch; two or more
arguments are processed in order by the `len(lists) >= 2` branch.  (The
zero-argument call, which would raise `IndexError`, never occurs in the
pipeline.) -/
def delete_residual_files (args : List PyPaths) (disk : List String) : List String :=
  match args with
  | [single] => deleteOne single disk
  | ls => ls.foldl (fun d a => deleteOne a d) disk

/-- Lifting a flat list of paths into the nested-list argument shape. -/
def pathsOf (l : List String) : PyPaths := .list (l.map .path)

/-- `os.path.join` on a POSIX filesystem. -/
def pathJoin (dir file : String) : String := dir ++ "/" ++ file

/-- The externally visible actions of one `geoportalth_execute` run:
the overview-grid fetch, the per-tile / per-ID archive fetch-and-unpack
steps, and the merge / clip / cleanup stages of each branch. -/
inductive Event where
  | gridDownload (dem_year : String)
  | demTileDownload (tile : String)
  | demMerge
  | demClip
  | demCleanup (deleteList : List (List String))
  | opTileDownload (id : Int)
  | opMerge
  | opClip
  | opCleanup (deleteList : List (List String))
  deriving DecidableEq

/-- Whether an event fetches a DEM or OP tile archive. -/
def Event.isTileDownload : Event → Bool
  | .demTileDownload _ => true
  | .opTileDownload _ => true
  | _ => false

/-- Outcome of a pipeline run: the events performed, in order, and the
exception that aborted the run, if any. -/
structure ExecResult where
  events : List Event
  error : Option PyExc
  deriving DecidableEq

/-- `geoportalth_execute` (lines 18-144) as an event trace.  External
inputs stand in for the outside world: `overlayRows` for the geometric
overlay of the AOI with the vintage grid, `lookup` for the parsed
`id_file`, and `demUnzipped` / `opUnzipped` for the file names produced
by unpacking the downloaded archives.  The structure of the Python is
kept: the EPSG and `las` guards, then `dem_year_func`, the grid download,
`intersection`, and then the `if data_choice == "dem" or "both" /
elif data_choice == "op" or "both"` dispatch, each branch ending in
`determine_files_to_delete` + `delete_residual_files` (the cleanup
event). -/
def geoportalth_execute (data_choice : String) (year : Int)
    (dem_format : String) (epsg : String) (keep_files : Option (List String))
    (out_name : String) (dem_dir op_dir : String)
    (overlayRows : List String) (lookup : List LookupRow)
    (demUnzipped opUnzipped : List String) : ExecResult :=
  if !(epsg == "EPSG: 25832") then
    ⟨[], some (.functionalityNotImplemented ("Changing the EPSG of the output is not yet possible."))⟩
  else if dem_format == "las" then
    ⟨[], some (.functionalityNotImplemented ("Las files not yet supported."))⟩
  else
    match dem_year_func year with
    | .error e => ⟨[], some e⟩
    | .ok (_request, dem_year) =>
      let ev0 := [Event.gridDownload dem_year]
      match intersection dem_year overlayRows with
      | .error e => ⟨ev0, some e⟩
      | .ok tiles =>
        if data_choice == "dem" || data_choice == "both" then
          let demZips := tiles.map (fun tile =>
            pathJoin dem_dir (tile ++ "_" ++ dem_format ++ dem_year ++ ".zip"))
          let ev1 := ev0 ++ tiles.map Event.demTileDownload ++ [Event.demMerge, Event.demClip]
          let demInter := [pathJoin dem_dir (out_name ++ ".vrt"),
                           pathJoin dem_dir (out_name ++ ".tif")]
          match determine_files_to_delete demZips demUnzipped demInter keep_files with
          | .error e => ⟨ev1, some e⟩
          | .ok dl => ⟨ev1 ++ [Event.demCleanup dl], none⟩
        else if data_choice == "op" || data_choice == "both" then
          match op_download_state tiles year lookup with
          | (_, .error e) => ⟨ev0, some e⟩
          | (_, .ok ids) =>
            let opZips := ids.map (fun i => pathJoin op_dir (toString i ++ ".zip"))
            let ev1 := ev0 ++ ids.map Event.opTileDownload ++ [Event.opMerge, Event.opClip]
            let opInter := [pathJoin op_dir (out_name ++ ".vrt"),
                            pathJoin op_dir (out_name ++ ".tif")]
            match determine_files_to_delete opZips opUnzipped opInter keep_files with
            | .error e => ⟨ev1, some e⟩
            | .ok dl => ⟨ev1 ++ [Event.opCleanup dl], none⟩
        else ⟨ev0, none⟩

/-- Python `range(start, stop, step)` for a positive step. -/
def pyRange (start stop step : Nat) : List Nat :=
  List.range' start ((stop - start + step - 1) / step) step

/-- The IDs for which the requesting loop of `op_tilelist_creator`
(`op_tile_finder.py`, lines 128-131) issues HEAD requests: for each
`current in range(start, end + 1, safe_step)` the batch
`range(current, current + safe_step)`. -/
def op_tilelist_creator_ids (start endId safe_step : Nat) : List Nat :=
  (pyRange start (endId + 1) safe_step).flatMap
    (fun current => pyRange current (current + safe_step) 1)


/-- The id taken for one tile by the matching loop: `values[0][0]` of the
tile-name filter, i.e. the id of the first row whose `tilename` matches
(the fallback row is irrelevant: it is only read when no row matches, in
which case the loop raises instead). -/
def firstMatchId (lookup : List LookupRow) (tile : String) : Int :=
  ((lookup.filter (fun row => row.tilename == tile)).headD ⟨0, 0, ""⟩).id

/-- Whether an event belongs to the OP branch of the pipeline. -/
def Event.isOpEvent : Event → Bool
  | .opTileDownload _ => true
  | .opMerge => true
  | .opClip => true
  | .opCleanup _ => true
  | _ => false

/-- Whether an event belongs to the DEM branch of the pipeline. -/
def Event.isDemEvent : Event → Bool
  | .demTileDownload _ => true
  | .demMerge => true
  | .demClip => true
  | .demCleanup _ => true
  | _ => false

/-- C5: for every year in [2010, 2013] the vintage selector returns the
label "2010-2013" with its grid URL, for [2014, 2019] the label
"2014-2019", and for [2020, 2025] the label "2020-2025"; being a Lean
function of the year alone, the selection has no side effects. -/
theorem dem_year_selector_vintages (y : Int) :
    (2010 ≤ y ∧ y ≤ 2013 → dem_year_func y =
      .ok ("https://geoportal.geoportal-th.de/hoehendaten/Uebersichten/Stand_2010-2013.zip",
           "2010-2013")) ∧
    (2014 ≤ y ∧ y ≤ 2019 → dem_year_func y =
      .ok ("https://geoportal.geoportal-th.de/hoehendaten/Uebersichten/Stand_2014-2019.zip",
           "2014-2019")) ∧
    (2020 ≤ y ∧ y ≤ 2025 → dem_year_func y =
      .ok ("https://geoportal.geoportal-th.de/hoehendaten/Uebersichten/Stand_2020-2025.zip",
           "2020-2025")) := by
  unfold dem_year_func
  refine ⟨fun h => ?_, fun h => ?_, fun h => ?_⟩
  · rw [if_pos ⟨h.2, h.1⟩]
  · rw [if_neg (by omega), if_pos (by omega)]
  · rw [if_neg (by omega), if_neg (by omega), if_pos (by omega)]

/-- Witness for C5 at the years 2012, 2015 and 2021. -/
theorem dem_year_selector_vintages_witness :
    dem_year_func 2012 =
      .ok ("https://geoportal.geoportal-th.de/hoehendaten/Uebersichten/Stand_2010-2013.zip",
           "2010-2013") ∧
    dem_year_func 2015 =
      .ok ("https://geoportal.geoportal-th.de/hoehendaten/Uebersichten/Stand_2014-2019.zip",
           "2014-2019") ∧
    dem_year_func 2021 =
      .ok ("https://geoportal.geoportal-th.de/hoehendaten/Uebersichten/Stand_2020-2025.zip",
           "2020-2025") :=
  ⟨(dem_year_selector_vintages 2012).1 (by decide),
   (dem_year_selector_vintages 2015).2.1 (by decide),
   (dem_year_selector_vintages 2021).2.2 (by decide)⟩

/-- Counterexample for C4: the year 1997 lies outside [2010, 2025], yet
`dem_year_func` does not fail; it falls into the `elif year <= 2019`
branch and returns the 2014-2019 grid. -/
theorem dem_year_selector_below_range_counterexample :
    dem_year_func 1997 =
      .ok ("https://geoportal.geoportal-th.de/hoehendaten/Uebersichten/Stand_2014-2019.zip",
           "2014-2019") := by decide

/-- C4, amended: only years above 2025 make `dem_year_func` fail with the
out-of-range `ValueError`; every year below 2010 silently selects the
2014-2019 grid instead of failing. -/
theorem dem_year_selector_out_of_range (y : Int) :
    (2025 < y → dem_year_func y =
      .error (.valueError
        ("The provided year is not yet supported with an URL. Current support ranges from 2010 to 2025."))) ∧
    (y < 2010 → dem_year_func y =
      .ok ("https://geoportal.geoportal-th.de/hoehendaten/Uebersichten/Stand_2014-2019.zip",
           "2014-2019")) := by
  unfold dem_year_func
  refine ⟨fun h => ?_, fun h => ?_⟩
  · rw [if_neg (by omega), if_neg (by omega), if_neg (by omega)]
  · rw [if_neg (by omega), if_pos (by omega)]

/-- Witness for the amended C4 at the years 2026 and 1997. -/
theorem dem_year_selector_out_of_range_witness :
    dem_year_func 2026 =
      .error (.valueError
        ("The provided year is not yet supported with an URL. Current support ranges from 2010 to 2025.")) ∧
    dem_year_func 1997 =
      .ok ("https://geoportal.geoportal-th.de/hoehendaten/Uebersichten/Stand_2014-2019.zip",
           "2014-2019") :=
  ⟨(dem_year_selector_out_of_range 2026).1 (by decide),
   (dem_year_selector_out_of_range 1997).2 (by decide)⟩

/-- C9: `op_download` mutates the caller-supplied tile list in place.
The list state after the call does not depend on the lookup table (so it
is the same for a call that raises `MissingAerialCoverage`); for every
year up to 2018 it is the corrected, deduplicated list produced by the
odd/even correction, and for every later year it is the unchanged input
list. -/
theorem op_download_list_mutation (tiles : List String) (year : Int)
    (lookup lookup2 : List LookupRow) :
    (op_download_state tiles year lookup).1 = (op_download_state tiles year lookup2).1 ∧
    (year ≤ 2018 → (op_download_state tiles year lookup).1 = (opCorrectTiles tiles).1) ∧
    (2018 < year → (op_download_state tiles year lookup).1 = tiles) := by
  simp only [op_download_state]
  rcases h : opCorrectTiles tiles with ⟨t2, e⟩
  by_cases hy : year ≤ 2018 <;> cases e <;> simp [hy, h]

/-- Witness for C9: a year-2018 call that raises the missing-coverage
error still leaves the caller's list corrected ("1_1" became "0_0"),
and a year-2019 call leaves it untouched. -/
theorem op_download_list_mutation_witness :
    op_download_state ["1_1"] 2018 [] =
      (["0_0"], .error (.missingAerialCoverage
        ("There are no matching ortophoto tiles in this year."))) ∧
    (op_download_state ["1_1"] 2018 []).1 = (opCorrectTiles ["1_1"]).1 ∧
    (op_download_state ["1_1"] 2019 []).1 = ["1_1"] :=
  ⟨by decide,
   (op_download_list_mutation ["1_1"] 2018 [] []).2.1 (by decide),
   (op_download_list_mutation ["1_1"] 2019 [] []).2.2 (by decide)⟩

/-- C7: in `geoportalth_execute` the OP case is an `elif` of the DEM
case, so `data_choice="both"` runs only the DEM branch: its run equals
the `data_choice="dem"` run and contains no OP-branch event, although
the same configuration with `data_choice="op"` does download, merge,
clip and clean up orthophotos.  This demonstrates the divergence of the
code from the claim (and from its own docstring) at the concrete input
`data_choice="both"`. -/
theorem geoportalth_execute_both_runs_dem_only :
    geoportalth_execute ("both") 2015 ("dgm") ("EPSG: 25832") (some ["all"])
        ("merged") ("demd") ("opd") ["2_2"] [⟨7, 2015, "2_2"⟩] [] [] =
      ⟨[.gridDownload ("2014-2019"), .demTileDownload ("2_2"), .demMerge, .demClip,
        .demCleanup []], none⟩ ∧
    geoportalth_execute ("both") 2015 ("dgm") ("EPSG: 25832") (some ["all"])
        ("merged") ("demd") ("opd") ["2_2"] [⟨7, 2015, "2_2"⟩] [] [] =
      geoportalth_execute ("dem") 2015 ("dgm") ("EPSG: 25832") (some ["all"])
        ("merged") ("demd") ("opd") ["2_2"] [⟨7, 2015, "2_2"⟩] [] [] ∧
    (geoportalth_execute ("both") 2015 ("dgm") ("EPSG: 25832") (some ["all"])
        ("merged") ("demd") ("opd") ["2_2"] [⟨7, 2015, "2_2"⟩] [] []).events.all
      (fun e => !e.isOpEvent) = true ∧
    geoportalth_execute ("op") 2015 ("dgm") ("EPSG: 25832") (some ["all"])
        ("merged") ("demd") ("opd") ["2_2"] [⟨7, 2015, "2_2"⟩] [] [] =
      ⟨[.gridDownload ("2014-2019"), .opTileDownload 7, .opMerge, .opClip,
        .opCleanup []], none⟩ := by
  refine ⟨by decide, by decide, by decide, by decide⟩

/-- Concatenating the step-sized blocks of a `range'` with that step
gives one contiguous unit-step range. -/
theorem range'_flatMap_blocks (step : Nat) :
    ∀ (n s : Nat), (List.range' s n step).flatMap (fun c => List.range' c step 1) =
      List.range' s (n * step) 1
  | 0, _ => by simp
  | n + 1, s => by
    rw [List.range'_succ, List.flatMap_cons, range'_flatMap_blocks step n (s + step)]
    have h := List.range'_append s step (n * step) 1
    simp only [Nat.one_mul] at h
    rw [h, Nat.succ_mul]

/-- A unit-step Python range over a block of `step` ids. -/
theorem pyRange_block (c step : Nat) : pyRange c (c + step) 1 = List.range' c step 1 := by
  unfold pyRange
  rw [Nat.div_one]
  congr 1
  omega

/-- C10: the requesting loop of `op_tilelist_creator` queries exactly the
contiguous id range from `start` of length `ceil((end+1-start)/safe_step)
* safe_step`; whenever `safe_step` does not divide `end + 1 - start`,
some requested id (namely `end + 1`) exceeds `end`, so `end` is not a
strict upper bound on the queried ids. -/
theorem op_tilelist_creator_requested_ids (start endId safe_step : Nat)
    (h1 : start ≤ endId) (h2 : 1 ≤ safe_step) :
    op_tilelist_creator_ids start endId safe_step =
      List.range' start ((endId + 1 - start + safe_step - 1) / safe_step * safe_step) 1 ∧
    (¬ safe_step ∣ (endId + 1 - start) →
      ∃ i ∈ op_tilelist_creator_ids start endId safe_step, endId < i) := by
  have heq : op_tilelist_creator_ids start endId safe_step =
      List.range' start ((endId + 1 - start + safe_step - 1) / safe_step * safe_step) 1 := by
    simp only [op_tilelist_creator_ids, pyRange_block]
    simp only [pyRange]
    rw [range'_flatMap_blocks]
  refine ⟨heq, fun hnd => ?_⟩
  obtain ⟨q, hq⟩ : ∃ q, (endId + 1 - start + safe_step - 1) / safe_step = q := ⟨_, rfl⟩
  obtain ⟨M, hM⟩ : ∃ M, (endId + 1 - start + safe_step - 1) % safe_step = M := ⟨_, rfl⟩
  have hmod := Nat.div_add_mod (endId + 1 - start + safe_step - 1) safe_step
  rw [hq, hM] at hmod
  have hmlt : M < safe_step := hM ▸ Nat.mod_lt _ (by omega)
  have hdvd : safe_step ∣ q * safe_step := ⟨q, Nat.mul_comm q safe_step⟩
  have hne : q * safe_step ≠ endId + 1 - start := fun h => hnd (h ▸ hdvd)
  have hlt : endId + 1 - start < q * safe_step := by
    have h3 : safe_step * q = q * safe_step := Nat.mul_comm _ _
    omega
  rw [heq, hq]
  exact ⟨endId + 1, List.mem_range'.mpr ⟨endId + 1 - start, hlt, by omega⟩, by omega⟩

/-- Witness for C10: `start=0`, `end=4`, `safe_step=3` requests the six
ids 0..5, and id 5 exceeds `end`. -/
theorem op_tilelist_creator_requested_ids_witness :
    op_tilelist_creator_ids 0 4 3 = List.range' 0 6 1 ∧
    ∃ i ∈ op_tilelist_creator_ids 0 4 3, 4 < i := by
  have h := op_tilelist_creator_requested_ids 0 4 3 (by decide) (by decide)
  exact ⟨h.1, h.2 (by decide)⟩


/-- Every id list returned by the matching loop has one id per tile. -/
theorem findIds_length (L : List LookupRow) :
    ∀ (tiles : List String) (ids : List Int),
      findIds L tiles = .ok ids → ids.length = tiles.length := by
  intro tiles
  induction tiles with
  | nil =>
    intro ids h
    simp only [findIds] at h
    cases h
    rfl
  | cons tile rest ih =>
    intro ids h
    simp only [findIds] at h
    rcases hf : L.filter (fun row => row.tilename == tile) with _ | ⟨row, rows⟩
    · rw [hf] at h
      cases h
    · rw [hf] at h
      rcases hr : findIds L rest with e | ids0
      · rw [hr] at h
        cases h
      · rw [hr] at h
        cases h
        simp [ih ids0 hr]

/-- If any tile has no matching row, the loop raises the fixed
missing-coverage error. -/
theorem findIds_missing (L : List LookupRow) :
    ∀ (tiles : List String),
      (∃ t ∈ tiles, L.filter (fun row => row.tilename == t) = []) →
      findIds L tiles = .error (.missingAerialCoverage
        ("There are no matching ortophoto tiles in this year.")) := by
  intro tiles
  induction tiles with
  | nil =>
    rintro ⟨t, ht, _⟩
    exact absurd ht (List.not_mem_nil t)
  | cons tile rest ih =>
    rintro ⟨t, ht, hempty⟩
    rcases List.mem_cons.mp ht with rfl | htr
    · simp only [findIds, hempty]
    · simp only [findIds]
      rcases hf : L.filter (fun row => row.tilename == tile) with _ | ⟨row, rows⟩
      · rw [hf]
      · rw [ih ⟨t, htr, hempty⟩, hf]

/-- If every tile has a matching row, the loop returns the id of the
first matching row of each tile, in order. -/
theorem findIds_found (L : List LookupRow) :
    ∀ (tiles : List String),
      (∀ t ∈ tiles, L.filter (fun row => row.tilename == t) ≠ []) →
      findIds L tiles = .ok (tiles.map (firstMatchId L)) := by
  intro tiles
  induction tiles with
  | nil => intro _; rfl
  | cons tile rest ih =>
    intro hall
    have h1 : L.filter (fun row => row.tilename == tile) ≠ [] :=
      hall tile (List.mem_cons_self tile rest)
    rcases hf : L.filter (fun row => row.tilename == tile) with _ | ⟨row, rows⟩
    · exact absurd hf h1
    · simp only [findIds, hf, ih (fun t ht => hall t (List.mem_cons_of_mem _ ht)),
        List.map_cons]
      simp [firstMatchId, hf]

/-- Counterexample for C3: the missing-coverage error carries a fixed
message that names neither the missing tile ("7_7") nor the year (2018),
so the error does not name the tile/year combination. -/
theorem op_resolver_error_counterexample :
    opResolveIds [] 2018 ["7_7"] =
      .error (.missingAerialCoverage
        ("There are no matching ortophoto tiles in this year.")) ∧
    ¬ (("7_7").data <:+: ("There are no matching ortophoto tiles in this year.").data) ∧
    ¬ (("2018").data <:+: ("There are no matching ortophoto tiles in this year.").data) :=
  ⟨by decide, by decide, by decide⟩

/-- C3, amended: if some tile has no row in the year-filtered lookup
table, `op_download` raises the missing-aerial-coverage error (with a
fixed message that does not name the tile/year combination) and returns
no partial id list; otherwise it returns exactly one id per tile, each
taken from the first row whose tilename matches within the year
filter. -/
theorem op_resolver_ids (lookup : List LookupRow) (year : Int) (tiles : List String) :
    ((∃ t ∈ tiles,
        (lookup.filter (fun row => row.year == year)).filter
          (fun row => row.tilename == t) = []) →
      opResolveIds lookup year tiles =
        .error (.missingAerialCoverage
          ("There are no matching ortophoto tiles in this year."))) ∧
    ((∀ t ∈ tiles,
        (lookup.filter (fun row => row.year == year)).filter
          (fun row => row.tilename == t) ≠ []) →
      opResolveIds lookup year tiles =
        .ok (tiles.map (firstMatchId (lookup.filter (fun row => row.year == year))))) ∧
    (∀ ids, opResolveIds lookup year tiles = .ok ids → ids.length = tiles.length) := by
  refine ⟨?_, ?_, ?_⟩
  · intro h
    exact findIds_missing _ tiles h
  · intro h
    exact findIds_found _ tiles h
  · intro ids h
    exact findIds_length _ tiles ids h

/-- Witness for the amended C3: a one-row lookup table resolves the
corrected tile list ["0_0"] to exactly the id list [5]. -/
theorem op_resolver_ids_witness :
    opResolveIds [⟨5, 2018, "0_0"⟩] 2018 ["0_0"] = .ok [5] ∧
    opResolveIds [⟨5, 2018, "0_0"⟩] 2018 ["2_2"] =
      .error (.missingAerialCoverage
        ("There are no matching ortophoto tiles in this year.")) := by
  have h1 := (op_resolver_ids [⟨5, 2018, "0_0"⟩] 2018 ["0_0"]).2.1 (by decide)
  have h2 := (op_resolver_ids [⟨5, 2018, "0_0"⟩] 2018 ["2_2"]).1 (by decide)
  refine ⟨?_, h2⟩
  rw [h1]
  decide


/-- A name whose parsed coordinates are both even is left alone by the
correction (the loop body hits `continue`). -/
theorem tileCorrection_of_even {a : String} {ax ay : Int}
    (hp : parseTileCoords a = .ok (ax, ay)) (hx : ax % 2 = 0) (hy : ay % 2 = 0) :
    tileCorrection a = .ok none := by
  unfold tileCorrection
  rw [hp]
  simp [hx, hy]

/-- For years up to 2018 the list left in the caller's variable is the
output of the correction loop, whatever the lookup table contains. -/
theorem op_download_state_fst_eq (tiles : List String) (year : Int)
    (lookup : List LookupRow) (hy : year ≤ 2018) :
    (op_download_state tiles year lookup).1 = (opCorrectTiles tiles).1 := by
  simp only [op_download_state, if_pos hy]
  rcases h : opCorrectTiles tiles with ⟨t2, e⟩
  cases e <;> simp [h]

/-- Origin of every name in the corrected list: it was already in the
live list, or it is the one-step correction of a snapshot tile.  In
particular corrections are never re-applied to already-corrected
names. -/
theorem opCorrectFold_origins :
    ∀ (check cur out : List String), opCorrectFold check cur = (out, none) →
      ∀ t ∈ out, t ∈ cur ∨ ∃ s ∈ check, tileCorrection s = .ok (some t) := by
  intro check
  induction check with
  | nil =>
    intro cur out h t ht
    simp only [opCorrectFold] at h
    injection h with h1 _
    exact Or.inl (h1 ▸ ht)
  | cons tile rest ih =>
    intro cur out h t ht
    simp only [opCorrectFold] at h
    rcases hc : tileCorrection tile with e | o
    · rw [hc] at h
      simp at h
    · rcases o with _ | newTile
      · rw [hc] at h
        rcases ih cur out h t ht with hl | ⟨s, hs, hcs⟩
        · exact Or.inl hl
        · exact Or.inr ⟨s, List.mem_cons_of_mem _ hs, hcs⟩
      · rw [hc] at h
        by_cases hmem : tile ∈ cur
        · simp only [if_pos hmem] at h
          rcases ih _ out h t ht with hl | ⟨s, hs, hcs⟩
          · by_cases hnt : newTile ∈ cur.erase tile
            · rw [if_pos hnt] at hl
              exact Or.inl (List.mem_of_mem_erase hl)
            · rw [if_neg hnt] at hl
              rcases List.mem_append.mp hl with h1 | h2
              · exact Or.inl (List.mem_of_mem_erase h1)
              · have ht2 : t = newTile := by simpa using h2
                refine Or.inr ⟨tile, List.mem_cons_self _ _, ?_⟩
                rw [ht2]
                exact hc
          · exact Or.inr ⟨s, List.mem_cons_of_mem _ hs, hcs⟩
        · simp [hmem] at h

/-- The correction loop preserves freedom from duplicates. -/
theorem opCorrectFold_nodup :
    ∀ (check cur : List String), cur.Nodup → (opCorrectFold check cur).1.Nodup := by
  intro check
  induction check with
  | nil => intro cur h; exact h
  | cons tile rest ih =>
    intro cur h
    simp only [opCorrectFold]
    rcases hc : tileCorrection tile with e | o
    · exact h
    · rcases o with _ | newTile
      · exact ih cur h
      · by_cases hmem : tile ∈ cur
        · simp only [if_pos hmem]
          refine ih _ ?_
          by_cases hnt : newTile ∈ cur.erase tile
          · rw [if_pos hnt]
            exact h.erase tile
          · rw [if_neg hnt]
            rw [List.nodup_append]
            exact ⟨h.erase tile, List.nodup_singleton _,
              fun x hx hx2 => hnt (by rcases List.mem_singleton.mp hx2 with rfl; exact hx)⟩
        · simp only [if_neg hmem]
          exact h

/-- The correction loop never lengthens the list. -/
theorem opCorrectFold_length :
    ∀ (check cur : List String), (opCorrectFold check cur).1.length ≤ cur.length := by
  intro check
  induction check with
  | nil => intro cur; exact Nat.le_refl _
  | cons tile rest ih =>
    intro cur
    simp only [opCorrectFold]
    rcases hc : tileCorrection tile with e | o
    · exact Nat.le_refl _
    · rcases o with _ | newTile
      · exact ih cur
      · by_cases hmem : tile ∈ cur
        · simp only [if_pos hmem]
          refine Nat.le_trans (ih _) ?_
          have h1 := List.length_erase_of_mem hmem
          have h2 : 0 < cur.length := List.length_pos.mpr (List.ne_nil_of_mem hmem)
          by_cases hnt : newTile ∈ cur.erase tile
          · rw [if_pos hnt]
            omega
          · rw [if_neg hnt, List.length_append]
            simp only [List.length_singleton]
            omega
        · simp only [if_neg hmem]
          exact Nat.le_refl _

/-- An even-coordinate anchor that is in the live list, or is produced as
the correction of some snapshot tile, survives to the end of the loop. -/
theorem opCorrectFold_anchor {a : String} (ha : tileCorrection a = .ok none) :
    ∀ (check cur out : List String), opCorrectFold check cur = (out, none) →
      (a ∈ cur ∨ ∃ s ∈ check, tileCorrection s = .ok (some a)) → a ∈ out := by
  intro check
  induction check with
  | nil =>
    intro cur out h hin
    simp only [opCorrectFold] at h
    injection h with h1 _
    rcases hin with h2 | ⟨s, hs, _⟩
    · exact h1 ▸ h2
    · exact absurd hs (List.not_mem_nil s)
  | cons tile rest ih =>
    intro cur out h hin
    simp only [opCorrectFold] at h
    rcases hc : tileCorrection tile with e | o
    · rw [hc] at h
      simp at h
    · rcases o with _ | newTile
      · rw [hc] at h
        refine ih cur out h ?_
        rcases hin with h1 | ⟨s, hs, hcs⟩
        · exact Or.inl h1
        · rcases List.mem_cons.mp hs with rfl | hs2
          · rw [hc] at hcs
            simp at hcs
          · exact Or.inr ⟨s, hs2, hcs⟩
      · rw [hc] at h
        by_cases hmem : tile ∈ cur
        · simp only [if_pos hmem] at h
          have hne : a ≠ tile := by
            intro heq
            rw [heq, hc] at ha
            simp at ha
          refine ih _ out h ?_
          rcases hin with h1 | ⟨s, hs, hcs⟩
          · refine Or.inl ?_
            have h2 : a ∈ cur.erase tile := (List.mem_erase_of_ne hne).mpr h1
            by_cases hnt : newTile ∈ cur.erase tile
            · rw [if_pos hnt]
              exact h2
            · rw [if_neg hnt]
              exact List.mem_append_left _ h2
          · rcases List.mem_cons.mp hs with heq | hs2
            · have haeq : newTile = a := by
                rw [heq, hc] at hcs
                simpa using hcs
              refine Or.inl ?_
              by_cases hnt : newTile ∈ cur.erase tile
              · rw [if_pos hnt, ← haeq]
                exact hnt
              · rw [if_neg hnt, ← haeq]
                exact List.mem_append_right _ (List.mem_singleton.mpr rfl)
            · exact Or.inr ⟨s, hs2, hcs⟩
        · simp [hmem] at h

/-- C1: in the OP tile-ID resolver, for every year up to 2018 and every
tile name parsing to coordinates (x, y): if exactly one of x, y is odd,
that coordinate and only that one is decremented by 1; if both are odd,
both are decremented; if both are even, the name is left unchanged.  The
resolver applies exactly one pass of `opCorrectFold` over a snapshot of
the original list, and every resulting name is an original name or the
one-step correction of an original name — corrections are never
re-applied to already-corrected names. -/
theorem op_tile_correction_parity (year : Int) (hyear : year ≤ 2018)
    (tile : String) (x y : Int) (hp : parseTileCoords tile = .ok (x, y)) :
    (x % 2 = 1 ∧ y % 2 = 0 → tileCorrection tile = .ok (some (mkTileName (x - 1) y))) ∧
    (x % 2 = 0 ∧ y % 2 = 1 → tileCorrection tile = .ok (some (mkTileName x (y - 1)))) ∧
    (x % 2 = 1 ∧ y % 2 = 1 → tileCorrection tile = .ok (some (mkTileName (x - 1) (y - 1)))) ∧
    (x % 2 = 0 ∧ y % 2 = 0 → tileCorrection tile = .ok none) ∧
    (∀ ts lookup, (op_download_state ts year lookup).1 = (opCorrectFold ts ts).1) ∧
    (∀ ts out, opCorrectFold ts ts = (out, none) →
      ∀ t ∈ out, t ∈ ts ∨ ∃ s ∈ ts, tileCorrection s = .ok (some t)) := by
  refine ⟨?_, ?_, ?_, ?_, ?_, ?_⟩
  · rintro ⟨hx, hy⟩
    unfold tileCorrection
    rw [hp]
    simp [hx, hy]
  · rintro ⟨hx, hy⟩
    unfold tileCorrection
    rw [hp]
    simp [hx, hy]
  · rintro ⟨hx, hy⟩
    unfold tileCorrection
    rw [hp]
    simp [hx, hy]
  · rintro ⟨hx, hy⟩
    exact tileCorrection_of_even hp hx hy
  · intro ts lookup
    exact op_download_state_fst_eq ts year lookup hyear
  · exact fun ts out h => opCorrectFold_origins ts ts out h

/-- Witness for C1 at year 2018 on the four parity classes. -/
theorem op_tile_correction_parity_witness :
    tileCorrection ("3_4") = .ok (some ("2_4")) ∧
    tileCorrection ("4_3") = .ok (some ("4_2")) ∧
    tileCorrection ("3_3") = .ok (some ("2_2")) ∧
    tileCorrection ("4_4") = .ok none ∧
    (op_download_state ["3_4"] 2018 []).1 = (opCorrectFold ["3_4"] ["3_4"]).1 := by
  have h1 := op_tile_correction_parity 2018 (by decide) ("3_4") 3 4 (by decide)
  have h2 := op_tile_correction_parity 2018 (by decide) ("4_3") 4 3 (by decide)
  have h3 := op_tile_correction_parity 2018 (by decide) ("3_3") 3 3 (by decide)
  have h4 := op_tile_correction_parity 2018 (by decide) ("4_4") 4 4 (by decide)
  refine ⟨?_, ?_, ?_, h4.2.2.2.1 ⟨by decide, by decide⟩, h1.2.2.2.2.1 ["3_4"] []⟩
  · rw [h1.1 ⟨by decide, by decide⟩]
    decide
  · rw [h2.2.1 ⟨by decide, by decide⟩]
    decide
  · rw [h3.2.2.1 ⟨by decide, by decide⟩]
    decide

/-- C2: for a duplicate-free tile list and a year up to 2018, the list
left by the correction step of `op_download` is duplicate-free and no
longer than the input; an even-coordinate anchor covered by the input
(directly or as the correction of an input tile) occurs exactly once in
it; and a successfully resolved id list has exactly one id per corrected
tile (so it can be strictly shorter than the original tile list). -/
theorem op_tile_dedup (year : Int) (hyear : year ≤ 2018)
    (lookup : List LookupRow) (tiles : List String) (hnd : tiles.Nodup)
    (hok : (opCorrectTiles tiles).2 = none) :
    (op_download_state tiles year lookup).1.Nodup ∧
    (op_download_state tiles year lookup).1.length ≤ tiles.length ∧
    (∀ a ax ay, parseTileCoords a = .ok (ax, ay) → ax % 2 = 0 → ay % 2 = 0 →
      (a ∈ tiles ∨ ∃ s ∈ tiles, tileCorrection s = .ok (some a)) →
      (op_download_state tiles year lookup).1.count a = 1) ∧
    (∀ ids, (op_download_state tiles year lookup).2 = .ok ids →
      ids.length = (op_download_state tiles year lookup).1.length) := by
  rcases hsplit : opCorrectTiles tiles with ⟨out, e⟩
  have he : e = none := by
    rw [hsplit] at hok
    exact hok
  subst he
  have hfst : (op_download_state tiles year lookup).1 = out := by
    rw [op_download_state_fst_eq tiles year lookup hyear, hsplit]
  have hnodup : out.Nodup := by
    have := opCorrectFold_nodup tiles tiles hnd
    rw [show opCorrectFold tiles tiles = opCorrectTiles tiles from rfl, hsplit] at this
    exact this
  have hlen : out.length ≤ tiles.length := by
    have := opCorrectFold_length tiles tiles
    rw [show opCorrectFold tiles tiles = opCorrectTiles tiles from rfl, hsplit] at this
    exact this
  have hsnd : (op_download_state tiles year lookup).2 =
      findIds (lookup.filter (fun row => row.year == year)) out := by
    simp only [op_download_state, if_pos hyear, hsplit]
  refine ⟨by rw [hfst]; exact hnodup, by rw [hfst]; exact hlen, ?_, ?_⟩
  · intro a ax ay hp hx hy hin
    rw [hfst]
    have ha := tileCorrection_of_even hp hx hy
    have hmem : a ∈ out := opCorrectFold_anchor ha tiles tiles out hsplit hin
    exact List.count_eq_one_of_mem hnodup hmem
  · intro ids hids
    rw [hsnd] at hids
    rw [hfst]
    exact findIds_length _ out ids hids

/-- Witness for C2: the tiles "1_1" and "0_0" both resolve to the anchor
"0_0", which occurs exactly once; the corrected list and the id list are
strictly shorter than the input list. -/
theorem op_tile_dedup_witness :
    (op_download_state ["1_1", "0_0"] 2018 [⟨5, 2018, "0_0"⟩]).1.count ("0_0") = 1 ∧
    (op_download_state ["1_1", "0_0"] 2018 [⟨5, 2018, "0_0"⟩]).1.length < 2 ∧
    (op_download_state ["1_1", "0_0"] 2018 [⟨5, 2018, "0_0"⟩]).2 = .ok [5] := by
  have h := op_tile_dedup 2018 (by decide) [⟨5, 2018, "0_0"⟩] ["1_1", "0_0"]
    (by decide) (by decide)
  exact ⟨h.2.2.1 ("0_0") 0 0 (by decide) (by decide) (by decide)
    (Or.inr ⟨"1_1", by decide, by decide⟩), by decide, by decide⟩


/-- `deleteOne` on a flat list of paths erases the paths in order. -/
theorem deleteOne_paths (l : List String) :
    ∀ disk, deleteOne (pathsOf l) disk = l.foldl (fun d s => d.erase s) disk := by
  induction l with
  | nil =>
    intro disk
    simp [pathsOf, deleteOne]
  | cons s rest ih =>
    intro disk
    simp only [pathsOf, List.map_cons, deleteOne, List.foldl_cons]
    have hif : (if s ∈ disk then disk.erase s else disk) = disk.erase s := by
      split
      · rfl
      · exact (List.erase_of_not_mem (by assumption)).symm
    rw [hif]
    simpa [pathsOf] using ih (disk.erase s)

/-- Erasing a list of paths from a duplicate-free disk keeps exactly the
paths outside that list. -/
theorem foldl_erase_eq_filter :
    ∀ (l disk : List String), disk.Nodup →
      l.foldl (fun d s => d.erase s) disk = disk.filter (fun p => !(decide (p ∈ l))) := by
  intro l
  induction l with
  | nil =>
    intro disk _
    simp
  | cons s rest ih =>
    intro disk h
    simp only [List.foldl_cons]
    rw [ih (disk.erase s) (h.erase s), h.erase_eq_filter s, List.filter_filter]
    have hfun : (fun a => (!(decide (a ∈ rest))) && (a != s)) =
        (fun a : String => !(decide (a ∈ s :: rest))) := by
      funext a
      by_cases hs : a = s <;> by_cases hr : a ∈ rest <;>
        simp [hs, hr, bne, beq_eq_decide]
    rw [hfun]

/-- C6 (evidence for the cleanup code bug): `keep_files=None` — the
documented default meaning "delete everything collected" — raises a
`TypeError`, because `determine_files_to_delete` evaluates
`"all" in keep_files` before its `None` check; `keep_files=["all"]`
deletes nothing; and `keep_files=["zip"]` selects exactly the unzipped
and intermediate lists, whose deletion removes exactly those paths from
disk and leaves every path outside them (in particular every zip path
not also listed as unzipped/intermediate) untouched. -/
theorem cleanup_keep_files (z u i disk : List String) (hdisk : disk.Nodup) :
    determine_files_to_delete z u i none =
      .error (.typeError ("argument of type NoneType is not iterable")) ∧
    determine_files_to_delete z u i (some ["all"]) = .ok [] ∧
    delete_residual_files [.list []] disk = disk ∧
    determine_files_to_delete z u i (some ["zip"]) = .ok [u, i] ∧
    delete_residual_files [.list [pathsOf u, pathsOf i]] disk =
      disk.filter (fun p => !(decide (p ∈ u ++ i))) ∧
    (∀ p ∈ z, p ∈ disk → p ∉ u ++ i →
      p ∈ delete_residual_files [.list [pathsOf u, pathsOf i]] disk) ∧
    (∀ p ∈ u ++ i, p ∉ delete_residual_files [.list [pathsOf u, pathsOf i]] disk) := by
  have hfilter : delete_residual_files [.list [pathsOf u, pathsOf i]] disk =
      disk.filter (fun p => !(decide (p ∈ u ++ i))) := by
    have h1 : delete_residual_files [.list [pathsOf u, pathsOf i]] disk =
        (u ++ i).foldl (fun d s => d.erase s) disk := by
      show deleteOne (.list [pathsOf u, pathsOf i]) disk = _
      simp only [deleteOne]
      rw [deleteOne_paths, deleteOne_paths, ← List.foldl_append]
    rw [h1]
    exact foldl_erase_eq_filter (u ++ i) disk hdisk
  refine ⟨rfl, ?_, ?_, ?_, hfilter, ?_, ?_⟩
  · simp [determine_files_to_delete]
  · simp [delete_residual_files, deleteOne]
  · simp +decide [determine_files_to_delete]
  · intro p _ hdiskmem hnot
    rw [hfilter]
    exact List.mem_filter.mpr ⟨hdiskmem, by simp [hnot]⟩
  · intro p hp
    rw [hfilter]
    intro hmem
    have h2 := (List.mem_filter.mp hmem).2
    simp [hp] at h2

/-- The vintage label returned by `dem_year_func` is always one of the
three labels known to `intersection`. -/
theorem dem_year_func_vintage (year : Int) (req dy : String)
    (h : dem_year_func year = .ok (req, dy)) :
    dy = "2010-2013" ∨ dy = "2014-2019" ∨ dy = "2020-2025" := by
  unfold dem_year_func at h
  split at h
  · simp only [Except.ok.injEq, Prod.mk.injEq] at h
    exact Or.inl h.2.symm
  · split at h
    · simp only [Except.ok.injEq, Prod.mk.injEq] at h
      exact Or.inr (Or.inl h.2.symm)
    · split at h
      · simp only [Except.ok.injEq, Prod.mk.injEq] at h
        exact Or.inr (Or.inr h.2.symm)
      · simp at h

/-- C8: when the overlay of the AOI with the vintage tile grid is empty,
`intersection` raises the no-coverage `AreaOutOfBounds` error and returns
no tile list, and `geoportalth_execute` propagates exactly that error
with no DEM or OP tile-archive download event in its trace (only the
overview-grid fetch precedes the error). -/
theorem no_coverage_stops_pipeline (data_choice : String) (year : Int)
    (dem_format : String) (keep_files : Option (List String))
    (out_name dem_dir op_dir : String) (lookup : List LookupRow)
    (demUnzipped opUnzipped : List String) (req dy : String)
    (hy : dem_year_func year = .ok (req, dy)) (hfmt : dem_format ≠ "las") :
    intersection dy [] = .error (.areaOutOfBounds
      ("Your area of interest seems to not lie within Thuringian state borders or adequate coverage is not available for chosen DEMs.")) ∧
    (geoportalth_execute data_choice year dem_format ("EPSG: 25832") keep_files
        out_name dem_dir op_dir [] lookup demUnzipped opUnzipped).error =
      some (.areaOutOfBounds
        ("Your area of interest seems to not lie within Thuringian state borders or adequate coverage is not available for chosen DEMs.")) ∧
    (∀ e ∈ (geoportalth_execute data_choice year dem_format ("EPSG: 25832") keep_files
        out_name dem_dir op_dir [] lookup demUnzipped opUnzipped).events,
      e.isTileDownload = false) := by
  have hint : intersection dy [] = .error (.areaOutOfBounds
      ("Your area of interest seems to not lie within Thuringian state borders or adequate coverage is not available for chosen DEMs.")) := by
    rcases dem_year_func_vintage year req dy hy with h | h | h <;> subst h <;> decide
  have hrun : geoportalth_execute data_choice year dem_format ("EPSG: 25832") keep_files
      out_name dem_dir op_dir [] lookup demUnzipped opUnzipped =
      ⟨[Event.gridDownload dy], some (.areaOutOfBounds
        ("Your area of interest seems to not lie within Thuringian state borders or adequate coverage is not available for chosen DEMs."))⟩ := by
    simp +decide [geoportalth_execute, hy, hint, hfmt]
  refine ⟨hint, ?_, ?_⟩
  · rw [hrun]
  · rw [hrun]
    intro e he
    rcases List.mem_singleton.mp he with rfl
    rfl

/-- Witness for C8: a concrete empty-overlay run in 2015 aborts with the
no-coverage error after only the grid fetch. -/
theorem no_coverage_stops_pipeline_witness :
    (geoportalth_execute ("dem") 2015 ("dgm") ("EPSG: 25832") (some ["all"])
        ("merged") ("demd") ("opd") [] [] [] []).error =
      some (.areaOutOfBounds
        ("Your area of interest seems to not lie within Thuringian state borders or adequate coverage is not available for chosen DEMs.")) ∧
    ∀ e ∈ (geoportalth_execute ("dem") 2015 ("dgm") ("EPSG: 25832") (some ["all"])
        ("merged") ("demd") ("opd") [] [] [] []).events,
      e.isTileDownload = false := by
  have h := no_coverage_stops_pipeline ("dem") 2015 ("dgm") (some ["all"])
    ("merged") ("demd") ("opd") [] [] []
    ("https://geoportal.geoportal-th.de/hoehendaten/Uebersichten/Stand_2014-2019.zip")
    ("2014-2019") (by decide) (by decide)
  exact ⟨h.2.1, h.2.2⟩

/-- Witness for C6 on a concrete three-file disk: the `None` default
raises `TypeError`, and keeping only zips removes exactly the unzipped
and intermediate files. -/
theorem cleanup_keep_files_witness :
    determine_files_to_delete ["a.zip"] ["b.tif"] ["c.vrt"] none =
      .error (.typeError ("argument of type NoneType is not iterable")) ∧
    delete_residual_files [.list [pathsOf ["b.tif"], pathsOf ["c.vrt"]]]
      ["a.zip", "b.tif", "c.vrt"] = ["a.zip"] := by
  have h := cleanup_keep_files ["a.zip"] ["b.tif"] ["c.vrt"]
    ["a.zip", "b.tif", "c.vrt"] (by decide)
  refine ⟨h.1, ?_⟩
  rw [h.2.2.2.2.1]
  decide

end GeoportalTH
